import Mathlib

/-!
Shallow embedding of the SPOTWISE service-request core:
the Mongoose request model with its pre-save / pre-find / pre-findOne
hooks (src/backend/models/LocationModel.js), the request controllers
(src/backend/controllers/serviceRequestController.js), and the
client-side location throttling (`_shouldUpdatePosition` in the
location tracking service).

Times are modelled as integers (milliseconds since epoch, as in JS
`Date.now()`).  The store backing Mongoose is a list of request
documents in natural (insertion) order; `updateOne` updates the first
matching document, `updateMany` updates all matching documents, and
`findById`/`findOne` return the first document with the given id.
-/

namespace Spotwise

/-- Request `status` enum of the schema:
`['pending', 'in-progress', 'completed', 'cancelled', 'expired']`. -/
inductive Status
  | pending
  | inProgress
  | completed
  | cancelled
  | expired
deriving DecidableEq, Repr

/-- History-entry `status` enum of the schema: `['accepted', 'completed']`. -/
inductive HStatus
  | accepted
  | hcompleted
deriving DecidableEq, Repr

/-- One element of the request's `history` array:
`{ provider, status, timestamp }`. -/
structure HistEntry where
  provider : Option Nat
  hstatus : HStatus
  timestamp : Int
deriving DecidableEq, Repr

/-- A GeoJSON point `[longitude, latitude]`. -/
structure Point where
  lon : ℚ
  lat : ℚ
deriving DecidableEq, Repr

/-- A request document (`requestSchema` in LocationModel.js).
`duration` is in minutes; `generatedPin` is declared `String` in the
schema, so the number assigned at accept time is cast to its decimal
string.  `expirationTime` is always (re)written by the pre-save hook
before a document is persisted. -/
structure Request where
  id : Nat
  seeker : Nat
  category : String
  location : Point
  duration : Int
  provider : Option Nat := none
  status : Status := .pending
  generatedPin : Option String := none
  pinGeneratedAt : Option Int := none
  history : List HistEntry := []
  createdAt : Int
  expirationTime : Int := 0
deriving DecidableEq, Repr

/-- User `role` enum: `['seeker', 'provider']`. -/
inductive Role
  | seeker
  | provider
deriving DecidableEq, Repr

/-- A user document (UserModel.js), restricted to the fields the
request controllers read.  `status` is one of the schema strings
`'offline' | 'online' | 'active' | 'in-progress'`. -/
structure User where
  id : Nat
  role : Role
  status : String := "offline"
  skills : List String := []
  location : Option Point := none
deriving DecidableEq, Repr

/-- First pre-save hook: `this.expirationTime = new Date(Date.now() +
this.duration * 60 * 1000)` — runs on EVERY save of a request
document. -/
def setExpiration (now : Int) (r : Request) : Request :=
  { r with expirationTime := now + r.duration * 60 * 1000 }

/-- Second pre-save hook: when `status` was modified on this save,
push an `accepted` entry if the new status is `in-progress`, or a
`completed` entry if the new status is `completed`. -/
def pushHistory (now : Int) (statusModified : Bool) (r : Request) : Request :=
  if statusModified then
    if r.status = .inProgress then
      { r with history := r.history ++ [⟨r.provider, .accepted, now⟩] }
    else if r.status = .completed then
      { r with history := r.history ++ [⟨r.provider, .hcompleted, now⟩] }
    else r
  else r

/-- `document.save()`: both pre-save hooks run, in registration order.
`oldStatus` is the persisted status the document was loaded with;
Mongoose's `isModified('status')` is true when the field was assigned
a different value. -/
def saveRequest (now : Int) (oldStatus : Status) (r : Request) : Request :=
  pushHistory now (decide (r.status ≠ oldStatus)) (setExpiration now r)

/-- The single-document effect of the expiry sweep's update:
`{ expirationTime: { $lt: now }, status: { $ne: 'expired' } } ↦
{ status: 'expired' }`.  An `updateMany`/`updateOne` write bypasses the
save hooks, so only `status` changes. -/
def sweepOne (now : Int) (r : Request) : Request :=
  if r.expirationTime < now ∧ r.status ≠ .expired then
    { r with status := .expired }
  else r

/-- Pre-`find` hook (the expiry sweeper on list reads):
`updateMany({ expirationTime: { $lt: now }, status: { $ne: 'expired' } },
{ status: 'expired' })` over the whole collection. -/
def sweepExpired (now : Int) (store : List Request) : List Request :=
  store.map (sweepOne now)

/-- Pre-`findOne` hook (the expiry sweeper on single-document reads):
`updateOne` with the same filter, which rewrites only the FIRST
matching document in natural order (the filter ignores the id being
looked up). -/
def sweepFirst (now : Int) : List Request → List Request
  | [] => []
  | r :: rs =>
    if r.expirationTime < now ∧ r.status ≠ .expired then
      { r with status := .expired } :: rs
    else
      r :: sweepFirst now rs

/-- `Model.findById(id)` as the controllers use it: the pre-`findOne`
hook (expiry sweep on one document) runs first, then the first
document with the given id is returned together with the post-sweep
store. -/
def findById (now : Int) (store : List Request) (id : Nat) :
    List Request × Option Request :=
  let s := sweepFirst now store
  (s, s.find? (fun r => r.id = id))

/-- Replace every document with the given id by `r` (persisting a
mutated document back into the collection). -/
def updateById (store : List Request) (id : Nat) (r : Request) :
    List Request :=
  store.map (fun x => if x.id = id then r else x)

/-- A JavaScript value as it arrives from a JSON request body, as far
as the PIN comparison is concerned: a string, a number, or absent
(`undefined`). -/
inductive JSValue
  | str (s : String)
  | num (n : Int)
  | undef
deriving DecidableEq, Repr

/-- JS strict equality `request.generatedPin === pin` between the
stored pin (a schema `String`, or `undefined` when never set) and the
submitted body value: strict equality never coerces, so values of
different types are unequal. -/
def jsStrictEqPin : Option String → JSValue → Bool
  | some s, .str t => s = t
  | none, .undef => true
  | _, _ => false

/-- Outcome of `createRequest`. -/
inductive CreateOutcome
  | forbidden
  | created (r : Request)
deriving DecidableEq, Repr

/-- `exports.createRequest`: only seekers may create; a new document
is built from the body (status defaults to `pending`, no provider, no
pin, `createdAt` defaults to now) and saved, the save hooks setting
`expirationTime = now + duration * 60 * 1000`.  `newId` stands for the
ObjectId Mongo assigns. -/
def createRequest (now : Int) (user : User) (store : List Request) (newId : Nat)
    (category : String) (location : Point) (duration : Int) :
    CreateOutcome × List Request :=
  if user.role ≠ .seeker then (.forbidden, store)
  else
    let r0 : Request := { id := newId, seeker := user.id, category := category,
                          location := location, duration := duration,
                          createdAt := now }
    let r1 := saveRequest now r0.status r0
    (.created r1, store ++ [r1])

/-- Outcome of `getActiveRequests`. -/
inductive ActiveOutcome
  | forbidden
  | providerBusy
  | invalidLocation
  | ok (requests : List Request)
deriving DecidableEq, Repr

/-- The radius used by `getActiveRequests`:
`const radius = 1000; // Radius in kilometers`. -/
def matchRadius : ℚ := 1000

/-- `exports.getActiveRequests`: only providers; rejected while the
provider's own status is `'in-progress'`; rejected without a valid
location.  The `find` runs the pre-`find` expiry sweep over the whole
collection, then filters by `category ∈ skills`, geospatial
containment (`$centerSphere` with radius `matchRadius / 6378.1`
radians, i.e. spherical distance at most `matchRadius` kilometers),
`expirationTime ≥ now` and `status = 'pending'`.  `dist` is the
spherical (great-circle) distance in kilometers used by the
`2dsphere` index, kept abstract here. -/
def getActiveRequests (now : Int) (dist : Point → Point → ℚ) (user : User)
    (store : List Request) : ActiveOutcome × List Request :=
  if user.role ≠ .provider then (.forbidden, store)
  else if user.status = "in-progress" then (.providerBusy, store)
  else
    match user.location with
    | none => (.invalidLocation, store)
    | some loc =>
      let s := sweepExpired now store
      (.ok (s.filter (fun r =>
          r.category ∈ user.skills ∧ dist loc r.location ≤ matchRadius ∧
          now ≤ r.expirationTime ∧ r.status = .pending)), s)

/-- Outcome of `acceptRequest`.  `forbidden` is the 403 role check,
`providerBusy` the "active request in progress" 400, `notFound` the
404, `alreadyClaimed` the "Request is no longer active" 400. -/
inductive AcceptOutcome
  | forbidden
  | providerBusy
  | notFound
  | alreadyClaimed
  | accepted
deriving DecidableEq, Repr

/-- Result of `acceptRequest`: outcome plus the post-call request
store and calling user document. -/
structure AcceptResult where
  outcome : AcceptOutcome
  store : List Request
  user : User
deriving DecidableEq, Repr

/-- The 6-digit PIN `Math.floor(100000 + Math.random() * 900000)`,
with `rnd` standing for the `Math.random()` draw in `[0, 1)`. -/
def genPin (rnd : ℚ) : Int :=
  ⌊(100000 : ℚ) + rnd * 900000⌋

/-- `exports.acceptRequest`: role check, provider-busy check, then
`findById` (whose pre-`findOne` hook runs the single-document expiry
sweep), not-found check, pending check; on success the request gets
`status = 'in-progress'`, `provider`, and `generatedPin` (a Number
cast by the schema to its decimal string), the user gets
`status = 'in-progress'`, and both are saved — the request's save
re-running both pre-save hooks. -/
def acceptRequest (now : Int) (rnd : ℚ) (user : User) (store : List Request)
    (requestId : Nat) : AcceptResult :=
  if user.role ≠ .provider then ⟨.forbidden, store, user⟩
  else if user.status = "in-progress" then ⟨.providerBusy, store, user⟩
  else
    let s := sweepFirst now store
    match s.find? (fun r => r.id = requestId) with
    | none => ⟨.notFound, s, user⟩
    | some r =>
      if r.status ≠ .pending then ⟨.alreadyClaimed, s, user⟩
      else
        let r1 := { r with status := .inProgress, provider := some user.id,
                           generatedPin := some (toString (genPin rnd)) }
        let r2 := saveRequest now r.status r1
        ⟨.accepted, updateById s requestId r2, { user with status := "in-progress" }⟩

/-- Outcome of `completeRequest`. -/
inductive CompleteOutcome
  | notFound
  | invalidPin
  | completedOk
deriving DecidableEq, Repr

/-- Result of `completeRequest`. -/
structure CompleteResult where
  outcome : CompleteOutcome
  store : List Request
  user : User
deriving DecidableEq, Repr

/-- `exports.completeRequest`: `findById` (with its single-document
expiry sweep), not-found check, then the strict PIN comparison
`request.generatedPin !== pin` — there is no role, ownership or
status check.  On a pin match the request is set to `'completed'` and
saved (both pre-save hooks run), and the calling user's status is set
to `'online'`. -/
def completeRequest (now : Int) (user : User) (store : List Request)
    (requestId : Nat) (pin : JSValue) : CompleteResult :=
  let s := sweepFirst now store
  match s.find? (fun r => r.id = requestId) with
  | none => ⟨.notFound, s, user⟩
  | some r =>
    if ¬ jsStrictEqPin r.generatedPin pin then ⟨.invalidPin, s, user⟩
    else
      let r2 := saveRequest now r.status { r with status := .completed }
      ⟨.completedOk, updateById s requestId r2, { user with status := "online" }⟩

/-- Outcome of `cancelRequest`.  `invalidState` is the
"Request is in progress and cannot be cancelled." 400. -/
inductive CancelOutcome
  | forbidden
  | notFound
  | invalidState
  | cancelledOk
deriving DecidableEq, Repr

/-- Result of `cancelRequest`. -/
structure CancelResult where
  outcome : CancelOutcome
  store : List Request
deriving DecidableEq, Repr

/-- `exports.cancelRequest`: only the role is checked (`req.user.role
!== 'seeker'`) — the controller never compares `request.seeker` with
the caller's id.  Then `findById` (with its single-document expiry
sweep), not-found check, pending check; on success the request is set
to `'cancelled'` and saved (both pre-save hooks run). -/
def cancelRequest (now : Int) (user : User) (store : List Request)
    (requestId : Nat) : CancelResult :=
  if user.role ≠ .seeker then ⟨.forbidden, store⟩
  else
    let s := sweepFirst now store
    match s.find? (fun r => r.id = requestId) with
    | none => ⟨.notFound, s⟩
    | some r =>
      if r.status ≠ .pending then ⟨.invalidState, s⟩
      else
        let r2 := saveRequest now r.status { r with status := .cancelled }
        ⟨.cancelledOk, updateById s requestId r2⟩

/-- Geolocation coordinates as read by the tracking service. -/
structure Coords where
  latitude : ℚ
  longitude : ℚ
  accuracy : ℚ
deriving DecidableEq, Repr

/-- A position sample: coordinates plus a millisecond timestamp. -/
structure Position where
  coords : Coords
  timestamp : Int
deriving DecidableEq, Repr

/-- The `trackingOptions` object of the `LocationTrackingService`
constructor. -/
structure TrackingOptions where
  enableHighAccuracy : Bool
  maximumAge : Int
  timeout : Int
  distanceFilter : ℚ
deriving DecidableEq, Repr

/-- The fields of `LocationTrackingService` that
`_shouldUpdatePosition` reads. -/
structure LocationTrackingService where
  lastPosition : Option Position
  trackingOptions : TrackingOptions
  batteryFriendly : Bool
  minAccuracy : ℚ
deriving DecidableEq, Repr

/-- Constructor defaults: `maximumAge: 30000`, `timeout: 27000`,
`distanceFilter: 10` (10 meters minimum movement). -/
def defaultTrackingOptions : TrackingOptions :=
  { enableHighAccuracy := true, maximumAge := 30000, timeout := 27000,
    distanceFilter := 10 }

/-- A freshly constructed `LocationTrackingService`:
`lastPosition = null`, `batteryFriendly = true`, `minAccuracy = 50`. -/
def newLocationTrackingService : LocationTrackingService :=
  { lastPosition := none, trackingOptions := defaultTrackingOptions,
    batteryFriendly := true, minAccuracy := 50 }

/-- `_shouldUpdatePosition(position)`: always update with no previous
position; skip poor-accuracy readings in battery-friendly mode;
otherwise update iff the distance from the last propagated position
exceeds `trackingOptions.distanceFilter` or the time since it exceeds
the hard-coded `timeThreshold = 60000` ms.  `calcDistance` stands for
`_calculateDistance(lat1, lon1, lat2, lon2)`, the haversine distance
in meters on a 6371 km sphere, kept abstract (floating-point
trigonometry). -/
def shouldUpdatePosition (calcDistance : ℚ → ℚ → ℚ → ℚ → ℚ)
    (svc : LocationTrackingService) (position : Position) : Bool :=
  match svc.lastPosition with
  | none => true
  | some lastPosition =>
    if svc.batteryFriendly ∧ position.coords.accuracy > svc.minAccuracy then
      false
    else
      let distance := calcDistance lastPosition.coords.latitude
        lastPosition.coords.longitude position.coords.latitude
        position.coords.longitude
      let timeDiff := position.timestamp - lastPosition.timestamp
      let timeThreshold : Int := 60000
      decide (distance > svc.trackingOptions.distanceFilter) ||
        decide (timeDiff > timeThreshold)

/-! ### Concrete fixtures for counterexamples and witnesses -/

/-- A pending request created at time 0 with a 30-minute duration, so
`expirationTime = 0 + 30 * 60 * 1000 = 1800000`. -/
def rPending : Request :=
  { id := 1, seeker := 10, category := "plumbing", location := ⟨77, 12⟩,
    duration := 30, createdAt := 0, expirationTime := 1800000 }

/-- A pending request whose validity window has already elapsed. -/
def rStalePending : Request :=
  { rPending with expirationTime := 50 }

/-- A completed request whose (recomputed) `expirationTime` lies in
the past. -/
def rCompletedStale : Request :=
  { rPending with status := .completed, provider := some 20,
                  expirationTime := 100 }

/-- A completed request that went through accept, still carrying its
PIN, with `expirationTime` in the future. -/
def rCompletedPin : Request :=
  { id := 2, seeker := 10, category := "plumbing", location := ⟨77, 12⟩,
    duration := 30, provider := some 20, status := .completed,
    generatedPin := some "123456", createdAt := 0,
    expirationTime := 10000000 }

/-- An in-progress request carrying the PIN `"123456"`. -/
def rInProgressPin : Request :=
  { id := 3, seeker := 10, category := "plumbing", location := ⟨77, 12⟩,
    duration := 30, provider := some 20, status := .inProgress,
    generatedPin := some "123456", createdAt := 0,
    expirationTime := 10000000 }

/-- An available provider with the `"plumbing"` skill. -/
def uProvider : User :=
  { id := 20, role := .provider, status := "online",
    skills := ["plumbing"], location := some ⟨77, 12⟩ }

/-- A seeker who did NOT create `rPending` (its seeker is 10). -/
def uSeeker2 : User :=
  { id := 11, role := .seeker, status := "offline" }

/-! ### Helper lemmas -/

/-- One pass of the expiry sweep is pointwise idempotent. -/
theorem sweepOne_idem (now : Int) (r : Request) :
    sweepOne now (sweepOne now r) = sweepOne now r := by
  unfold sweepOne
  split_ifs with h1 h2 <;> simp_all

/-- After the sweep, a past-expiry document reads `expired` whatever
its prior status was. -/
theorem sweepOne_status_expired (now : Int) (r : Request)
    (hexp : r.expirationTime < now) : (sweepOne now r).status = .expired := by
  unfold sweepOne
  split_ifs with h
  · rfl
  · push_neg at h
    simpa using h hexp

/-- The sweep preserves the length of the store. -/
theorem sweepExpired_length (now : Int) (store : List Request) :
    (sweepExpired now store).length = store.length := by
  simp [sweepExpired]

/-! ### C8: idempotence of the expiry sweep -/

/-- C8: `sweepExpired` is idempotent — running the expiry sweep (which
forces every request with `expirationTime < now` and status ≠ expired
to `expired`) twice in a row at the same instant yields exactly the
same store as running it once. -/
theorem c8_sweepExpired_idempotent (now : Int) (store : List Request) :
    sweepExpired now (sweepExpired now store) = sweepExpired now store := by
  unfold sweepExpired
  rw [List.map_map]
  exact List.map_congr_left (fun r _ => sweepOne_idem now r)

/-! ### C2: what the sweep does to past-expiry requests -/

/-- C2 counterexample: the expiry sweep DOES rewrite a request whose
status is `completed` (its filter only excludes status `expired`), so
a find-path read observes `expired` where the claim promises
`completed` is preserved. -/
theorem c2_counterexample :
    rCompletedStale.status = .completed ∧
    rCompletedStale.expirationTime < 200 ∧
    sweepExpired 200 [rCompletedStale] =
      [{ rCompletedStale with status := .expired }] := by
  decide

/-- C2 amended: after the find-path expiry sweep, EVERY request with
`expirationTime < now` reads `status = expired`, regardless of its
prior status — including `completed` and `cancelled`, which the sweep
overwrites like any other non-`expired` status. -/
theorem c2_sweep_forces_expired (now : Int) (store : List Request)
    (i : Nat) (h : i < store.length)
    (hexp : (store.get ⟨i, h⟩).expirationTime < now) :
    ((sweepExpired now store).get
        ⟨i, by rw [sweepExpired_length]; exact h⟩).status = .expired := by
  have : (sweepExpired now store).get ⟨i, by rw [sweepExpired_length]; exact h⟩ =
      sweepOne now (store.get ⟨i, h⟩) := by
    simp [sweepExpired]
  rw [this]
  exact sweepOne_status_expired now _ hexp

/-- Witness for C2's amended theorem at a concrete input: the stale
completed request reads `expired` after the sweep. -/
theorem c2_sweep_forces_expired_witness :
    ((sweepExpired 200 [rCompletedStale]).get
        ⟨0, by rw [sweepExpired_length]; decide⟩).status = .expired :=
  c2_sweep_forces_expired 200 [rCompletedStale] 0 (by decide) (by decide)

/-! ### Characterization lemmas for the controllers -/

/-- What a successful `acceptRequest` computes. -/
theorem acceptRequest_success (now : Int) (rnd : ℚ) (u : User)
    (store : List Request) (rid : Nat) (r : Request)
    (hrole : u.role = .provider) (hbusy : u.status ≠ "in-progress")
    (hfind : (sweepFirst now store).find? (fun x => x.id = rid) = some r)
    (hpend : r.status = .pending) :
    acceptRequest now rnd u store rid =
      ⟨.accepted,
       updateById (sweepFirst now store) rid
         (saveRequest now r.status
           { r with status := .inProgress, provider := some u.id,
                    generatedPin := some (toString (genPin rnd)) }),
       { u with status := "in-progress" }⟩ := by
  unfold acceptRequest
  rw [if_neg (by simp [hrole]), if_neg hbusy]
  simp only [hfind]
  rw [if_neg (by simp [hpend])]

/-- What `acceptRequest` does on each failure path. -/
theorem acceptRequest_failures (now : Int) (rnd : ℚ) (u : User)
    (store : List Request) (rid : Nat) (hrole : u.role = .provider) :
    (u.status = "in-progress" →
      acceptRequest now rnd u store rid = ⟨.providerBusy, store, u⟩) ∧
    (u.status ≠ "in-progress" →
      (sweepFirst now store).find? (fun x => x.id = rid) = none →
      acceptRequest now rnd u store rid = ⟨.notFound, sweepFirst now store, u⟩) ∧
    (u.status ≠ "in-progress" →
      ∀ r, (sweepFirst now store).find? (fun x => x.id = rid) = some r →
        r.status ≠ .pending →
        acceptRequest now rnd u store rid =
          ⟨.alreadyClaimed, sweepFirst now store, u⟩) := by
  refine ⟨fun hb => ?_, fun hb hf => ?_, fun hb r hf hs => ?_⟩
  · unfold acceptRequest
    rw [if_neg (by simp [hrole]), if_pos hb]
  · unfold acceptRequest
    rw [if_neg (by simp [hrole]), if_neg hb]
    simp only [hf]
  · unfold acceptRequest
    rw [if_neg (by simp [hrole]), if_neg hb]
    simp only [hf]
    rw [if_pos hs]

/-- What a successful `completeRequest` computes. -/
theorem completeRequest_success (now : Int) (u : User) (store : List Request)
    (rid : Nat) (pin : JSValue) (r : Request)
    (hfind : (sweepFirst now store).find? (fun x => x.id = rid) = some r)
    (hpin : jsStrictEqPin r.generatedPin pin = true) :
    completeRequest now u store rid pin =
      ⟨.completedOk,
       updateById (sweepFirst now store) rid
         (saveRequest now r.status { r with status := .completed }),
       { u with status := "online" }⟩ := by
  unfold completeRequest
  simp only [hfind]
  rw [if_neg (by simp [hpin])]

/-- What `completeRequest` does when the strict PIN comparison fails:
it reports `invalidPin` and does not mutate anything beyond the expiry
sweep triggered by the lookup. -/
theorem completeRequest_mismatch (now : Int) (u : User) (store : List Request)
    (rid : Nat) (pin : JSValue) (r : Request)
    (hfind : (sweepFirst now store).find? (fun x => x.id = rid) = some r)
    (hpin : jsStrictEqPin r.generatedPin pin = false) :
    completeRequest now u store rid pin = ⟨.invalidPin, sweepFirst now store, u⟩ := by
  unfold completeRequest
  simp only [hfind]
  rw [if_pos (by simp [hpin])]

/-- What a successful `cancelRequest` computes. -/
theorem cancelRequest_success (now : Int) (u : User) (store : List Request)
    (rid : Nat) (r : Request) (hrole : u.role = .seeker)
    (hfind : (sweepFirst now store).find? (fun x => x.id = rid) = some r)
    (hpend : r.status = .pending) :
    cancelRequest now u store rid =
      ⟨.cancelledOk,
       updateById (sweepFirst now store) rid
         (saveRequest now r.status { r with status := .cancelled })⟩ := by
  unfold cancelRequest
  rw [if_neg (by simp [hrole])]
  simp only [hfind]
  rw [if_neg (by simp [hpend])]

/-- What `cancelRequest` does on each failure path. -/
theorem cancelRequest_failures (now : Int) (u : User) (store : List Request)
    (rid : Nat) :
    (u.role ≠ .seeker → cancelRequest now u store rid = ⟨.forbidden, store⟩) ∧
    (u.role = .seeker →
      ∀ r, (sweepFirst now store).find? (fun x => x.id = rid) = some r →
        r.status ≠ .pending →
        cancelRequest now u store rid = ⟨.invalidState, sweepFirst now store⟩) := by
  refine ⟨fun hr => ?_, fun hr r hf hs => ?_⟩
  · unfold cancelRequest
    rw [if_pos hr]
  · unfold cancelRequest
    rw [if_neg (by simp [hr])]
    simp only [hf]
    rw [if_pos hs]

/-- `saveRequest` always overwrites `expirationTime` with
`now + duration * 60 * 1000`, whatever it was before. -/
theorem saveRequest_expirationTime (now : Int) (oldStatus : Status)
    (r : Request) :
    (saveRequest now oldStatus r).expirationTime =
      now + r.duration * 60 * 1000 := by
  unfold saveRequest pushHistory setExpiration
  split_ifs <;> rfl

/-- `saveRequest` never touches `duration`. -/
theorem saveRequest_duration (now : Int) (oldStatus : Status) (r : Request) :
    (saveRequest now oldStatus r).duration = r.duration := by
  unfold saveRequest pushHistory setExpiration
  split_ifs <;> rfl

/-- `saveRequest` never touches `createdAt`. -/
theorem saveRequest_createdAt (now : Int) (oldStatus : Status) (r : Request) :
    (saveRequest now oldStatus r).createdAt = r.createdAt := by
  unfold saveRequest pushHistory setExpiration
  split_ifs <;> rfl

/-- Inversion: a successful accept implies the role, busy, lookup and
pending checks all passed. -/
theorem acceptRequest_accepted_inv (now : Int) (rnd : ℚ) (u : User)
    (store : List Request) (rid : Nat)
    (h : (acceptRequest now rnd u store rid).outcome = .accepted) :
    u.role = .provider ∧ u.status ≠ "in-progress" ∧
    ∃ r, (sweepFirst now store).find? (fun x => x.id = rid) = some r ∧
      r.status = .pending := by
  by_cases h1 : u.role = .provider
  case neg =>
    exfalso
    unfold acceptRequest at h
    rw [if_pos h1] at h
    simp at h
  by_cases h2 : u.status = "in-progress"
  case neg =>
    cases hf : (sweepFirst now store).find? (fun x => x.id = rid) with
    | none =>
      exfalso
      unfold acceptRequest at h
      rw [if_neg (by simp [h1]), if_neg h2] at h
      simp only [hf] at h
      simp at h
    | some r =>
      refine ⟨h1, h2, r, rfl, ?_⟩
      by_cases h3 : r.status = .pending
      · exact h3
      · exfalso
        unfold acceptRequest at h
        rw [if_neg (by simp [h1]), if_neg h2] at h
        simp only [hf] at h
        rw [if_pos h3] at h
        simp at h
  case pos =>
    exfalso
    unfold acceptRequest at h
    rw [if_neg (by simp [h1]), if_pos h2] at h
    simp at h

/-- Inversion: a successful complete implies the lookup succeeded and
the strict PIN comparison passed. -/
theorem completeRequest_completedOk_inv (now : Int) (u : User)
    (store : List Request) (rid : Nat) (pin : JSValue)
    (h : (completeRequest now u store rid pin).outcome = .completedOk) :
    ∃ r, (sweepFirst now store).find? (fun x => x.id = rid) = some r ∧
      jsStrictEqPin r.generatedPin pin = true := by
  cases hf : (sweepFirst now store).find? (fun x => x.id = rid) with
  | none =>
    exfalso
    unfold completeRequest at h
    simp only [hf] at h
    simp at h
  | some r =>
    refine ⟨r, rfl, ?_⟩
    by_cases h2 : jsStrictEqPin r.generatedPin pin = true
    · exact h2
    · exfalso
      unfold completeRequest at h
      simp only [hf] at h
      rw [if_pos h2] at h
      simp at h

/-- Inversion: a successful cancel implies the role, lookup and
pending checks all passed. -/
theorem cancelRequest_cancelledOk_inv (now : Int) (u : User)
    (store : List Request) (rid : Nat)
    (h : (cancelRequest now u store rid).outcome = .cancelledOk) :
    u.role = .seeker ∧
    ∃ r, (sweepFirst now store).find? (fun x => x.id = rid) = some r ∧
      r.status = .pending := by
  by_cases h1 : u.role = .seeker
  case neg =>
    exfalso
    unfold cancelRequest at h
    rw [if_pos h1] at h
    simp at h
  cases hf : (sweepFirst now store).find? (fun x => x.id = rid) with
  | none =>
    exfalso
    unfold cancelRequest at h
    rw [if_neg (by simp [h1])] at h
    simp only [hf] at h
    simp at h
  | some r =>
    refine ⟨h1, r, rfl, ?_⟩
    by_cases h3 : r.status = .pending
    · exact h3
    · exfalso
      unfold cancelRequest at h
      rw [if_neg (by simp [h1])] at h
      simp only [hf] at h
      rw [if_pos h3] at h
      simp at h

/-- Every document with the updated id in an `updateById` result is
the updated document. -/
theorem mem_updateById (store : List Request) (rid : Nat) (r x : Request)
    (hx : x ∈ updateById store rid r) (hid : x.id = rid) : x = r := by
  unfold updateById at hx
  obtain ⟨y, _, hy⟩ := List.mem_map.mp hx
  by_cases h : y.id = rid
  · rw [if_pos h] at hy
    exact hy.symm
  · rw [if_neg h] at hy
    exact absurd (hy ▸ hid) h

/-! ### C1: `expirationTime` across the lifecycle -/

/-- C1 counterexample: a request created at time 0 with duration 30
minutes has `expirationTime = 1800000`, but a successful accept at
time 60000 re-runs the pre-save hook and leaves
`expirationTime = 1860000` — the field is recomputed, not preserved. -/
theorem c1_counterexample :
    rPending.expirationTime = rPending.createdAt + rPending.duration * 60 * 1000 ∧
    (acceptRequest 60000 0 uProvider [rPending] 1).outcome = .accepted ∧
    (acceptRequest 60000 0 uProvider [rPending] 1).store.map
        Request.expirationTime = [1860000] ∧
    (1860000 : Int) ≠ rPending.createdAt + rPending.duration * 60 * 1000 := by
  decide

/-- C1 amended: `expirationTime` is recomputed by the pre-save hook on
EVERY save: at creation it equals `createdAt + duration` minutes, but
after a successful accept, complete or cancel performed at time `now`
it equals `now + duration` minutes (the value it had at creation is
overwritten whenever `now` differs from `createdAt`). -/
theorem c1_expirationTime_recomputed (now : Int) (rnd : ℚ) (u : User)
    (store : List Request) (rid : Nat) (c : String) (p : Point) (d : Int) :
    (∀ r s, createRequest now u store rid c p d = (.created r, s) →
      r.expirationTime = r.createdAt + r.duration * 60 * 1000) ∧
    ((acceptRequest now rnd u store rid).outcome = .accepted →
      ∀ x ∈ (acceptRequest now rnd u store rid).store, x.id = rid →
        x.expirationTime = now + x.duration * 60 * 1000) ∧
    ((completeRequest now u store rid (.str c)).outcome = .completedOk →
      ∀ x ∈ (completeRequest now u store rid (.str c)).store, x.id = rid →
        x.expirationTime = now + x.duration * 60 * 1000) ∧
    ((cancelRequest now u store rid).outcome = .cancelledOk →
      ∀ x ∈ (cancelRequest now u store rid).store, x.id = rid →
        x.expirationTime = now + x.duration * 60 * 1000) := by
  refine ⟨fun r s heq => ?_, fun h x hx hid => ?_, fun h x hx hid => ?_,
          fun h x hx hid => ?_⟩
  · unfold createRequest at heq
    split_ifs at heq with h1
    · simp at heq
    · simp only [Prod.mk.injEq, CreateOutcome.created.injEq] at heq
      rw [← heq.1, saveRequest_expirationTime, saveRequest_duration,
          saveRequest_createdAt]
  · obtain ⟨h1, h2, r, hf, h3⟩ := acceptRequest_accepted_inv now rnd u store rid h
    rw [acceptRequest_success now rnd u store rid r h1 h2 hf h3] at hx
    have hx' := mem_updateById _ _ _ _ hx hid
    rw [hx', saveRequest_expirationTime, saveRequest_duration]
  · obtain ⟨r, hf, hp⟩ :=
      completeRequest_completedOk_inv now u store rid (.str c) h
    rw [completeRequest_success now u store rid (.str c) r hf hp] at hx
    have hx' := mem_updateById _ _ _ _ hx hid
    rw [hx', saveRequest_expirationTime, saveRequest_duration]
  · obtain ⟨h1, r, hf, h3⟩ := cancelRequest_cancelledOk_inv now u store rid h
    rw [cancelRequest_success now u store rid r h1 hf h3] at hx
    have hx' := mem_updateById _ _ _ _ hx hid
    rw [hx', saveRequest_expirationTime, saveRequest_duration]

/-- Witness for C1's amended theorem at a concrete input: accepting
the fixture request at time 60000 leaves `expirationTime = 1860000 =
60000 + 30 * 60 * 1000`. -/
theorem c1_expirationTime_recomputed_witness :
    ∀ x ∈ (acceptRequest 60000 0 uProvider [rPending] 1).store, x.id = 1 →
      x.expirationTime = 60000 + x.duration * 60 * 1000 :=
  (c1_expirationTime_recomputed 60000 0 uProvider [rPending] 1 "c" ⟨0, 0⟩
    30).2.1 (by decide)

/-! ### C3: when `completeRequest` succeeds -/

/-- C3 counterexample: `completeRequest` never checks the request's
status — re-submitting the correct PIN against an already `completed`
request succeeds again instead of failing with `InvalidState`. -/
theorem c3_counterexample :
    rCompletedPin.status ≠ .inProgress ∧
    (completeRequest 500 uProvider [rCompletedPin] 2
        (.str "123456")).outcome = .completedOk := by
  decide

/-- C3 amended: `complete` succeeds if and only if the (post-sweep)
lookup finds the request and the submitted code strictly equals the
stored code — the request's status is never consulted (there is no
`InvalidState` check); on a code mismatch the controller mutates
nothing beyond the expiry sweep run by the lookup and leaves the
calling user unchanged. -/
theorem c3_complete_succeeds_iff (now : Int) (u : User) (store : List Request)
    (rid : Nat) (pin : JSValue) :
    ((completeRequest now u store rid pin).outcome = .completedOk ↔
      ∃ r, (sweepFirst now store).find? (fun x => x.id = rid) = some r ∧
        jsStrictEqPin r.generatedPin pin = true) ∧
    ((completeRequest now u store rid pin).outcome = .invalidPin →
      (completeRequest now u store rid pin).store = sweepFirst now store ∧
      (completeRequest now u store rid pin).user = u) := by
  constructor
  · constructor
    · exact completeRequest_completedOk_inv now u store rid pin
    · rintro ⟨r, hf, hp⟩
      rw [completeRequest_success now u store rid pin r hf hp]
  · intro h
    cases hf : (sweepFirst now store).find? (fun x => x.id = rid) with
    | none =>
      exfalso
      unfold completeRequest at h
      simp only [hf] at h
      simp at h
    | some r =>
      by_cases hp : jsStrictEqPin r.generatedPin pin = true
      · exfalso
        rw [completeRequest_success now u store rid pin r hf hp] at h
        simp at h
      · rw [completeRequest_mismatch now u store rid pin r hf
            (Bool.not_eq_true _ ▸ hp)]
        exact ⟨rfl, rfl⟩

/-- Witness for C3's amended theorem at a concrete input: a wrong code
against the in-progress fixture leaves the store as the sweep left it
and the user untouched. -/
theorem c3_complete_succeeds_iff_witness :
    (completeRequest 500 uProvider [rInProgressPin] 3
        (.str "000000")).store = sweepFirst 500 [rInProgressPin] ∧
    (completeRequest 500 uProvider [rInProgressPin] 3
        (.str "000000")).user = uProvider :=
  (c3_complete_succeeds_iff 500 uProvider [rInProgressPin] 3
    (.str "000000")).2 (by decide)

/-! ### C5: who may cancel, and when -/

/-- C5 counterexample: `cancelRequest` never compares the caller with
the request's seeker — a different seeker (id 11, while the request's
seeker is 10) cancels someone else's pending request successfully
instead of failing with `AuthorizationError`. -/
theorem c5_counterexample :
    uSeeker2.id ≠ rPending.seeker ∧ uSeeker2.role = .seeker ∧
    (cancelRequest 100 uSeeker2 [rPending] 1).outcome = .cancelledOk := by
  decide

/-- C5 amended: cancel fails with `AuthorizationError` exactly when
the caller's role is not seeker — ownership is never checked, so ANY
seeker can cancel any pending request; it fails with `InvalidState`
when the (post-sweep) status is not `pending`; on success the request
is set to `cancelled`. -/
theorem c5_cancel_characterization (now : Int) (u : User)
    (store : List Request) (rid : Nat) :
    (u.role ≠ .seeker → cancelRequest now u store rid = ⟨.forbidden, store⟩) ∧
    (u.role = .seeker →
      ∀ r, (sweepFirst now store).find? (fun x => x.id = rid) = some r →
        (r.status ≠ .pending →
          cancelRequest now u store rid = ⟨.invalidState, sweepFirst now store⟩) ∧
        (r.status = .pending →
          (cancelRequest now u store rid).outcome = .cancelledOk ∧
          ∀ x ∈ (cancelRequest now u store rid).store, x.id = rid →
            x.status = .cancelled)) := by
  refine ⟨(cancelRequest_failures now u store rid).1, fun hr r hf => ?_⟩
  refine ⟨fun hs => (cancelRequest_failures now u store rid).2 hr r hf hs,
          fun hs => ?_⟩
  rw [cancelRequest_success now u store rid r hr hf hs]
  refine ⟨rfl, fun x hx hid => ?_⟩
  rw [mem_updateById _ _ _ _ hx hid]
  unfold saveRequest pushHistory setExpiration
  split_ifs <;> rfl

/-- Witness for C5's amended theorem at a concrete input: the
non-owning seeker's cancel succeeds and the stored request reads
`cancelled`. -/
theorem c5_cancel_characterization_witness :
    (cancelRequest 100 uSeeker2 [rPending] 1).outcome = .cancelledOk ∧
    ∀ x ∈ (cancelRequest 100 uSeeker2 [rPending] 1).store, x.id = 1 →
      x.status = .cancelled :=
  ((c5_cancel_characterization 100 uSeeker2 [rPending] 1).2 rfl rPending
    (by decide)).2 (by decide)

/-! ### C6: the accept failure paths -/

/-- C6 counterexample: accepting a pending request whose
`expirationTime` already lies in the past fails with `AlreadyClaimed`
— but the request WAS mutated on this failure path: the expiry sweep
triggered by the `findById` lookup flipped its status from `pending`
to `expired` before the check. -/
theorem c6_counterexample :
    rStalePending.status = .pending ∧
    (acceptRequest 100 0 uProvider [rStalePending] 1).outcome =
      .alreadyClaimed ∧
    (acceptRequest 100 0 uProvider [rStalePending] 1).store ≠
      [rStalePending] ∧
    (acceptRequest 100 0 uProvider [rStalePending] 1).store.map
      Request.status = [.expired] := by
  decide

/-- C6 amended: accept fails with `ProviderBusy` when the calling
provider's status is `in-progress` (with no mutation at all), with
`NotFound` when no request with the id exists, and with
`AlreadyClaimed` when the (post-sweep) status is not `pending`; on the
`NotFound` and `AlreadyClaimed` paths the provider is unchanged and
the store is mutated only by the expiry sweep that the lookup runs,
which may flip one past-expiry request (possibly the target) to
`expired`. -/
theorem c6_accept_failure_paths (now : Int) (rnd : ℚ) (u : User)
    (store : List Request) (rid : Nat) (hrole : u.role = .provider) :
    (u.status = "in-progress" →
      acceptRequest now rnd u store rid = ⟨.providerBusy, store, u⟩) ∧
    (u.status ≠ "in-progress" →
      (sweepFirst now store).find? (fun x => x.id = rid) = none →
      acceptRequest now rnd u store rid = ⟨.notFound, sweepFirst now store, u⟩) ∧
    (u.status ≠ "in-progress" →
      ∀ r, (sweepFirst now store).find? (fun x => x.id = rid) = some r →
        r.status ≠ .pending →
        acceptRequest now rnd u store rid =
          ⟨.alreadyClaimed, sweepFirst now store, u⟩) :=
  acceptRequest_failures now rnd u store rid hrole

/-- Witness for C6's amended theorem at a concrete input: the accept
against the stale pending fixture lands on the `AlreadyClaimed` path
with the store exactly as the sweep left it. -/
theorem c6_accept_failure_paths_witness :
    acceptRequest 100 0 uProvider [rStalePending] 1 =
      ⟨.alreadyClaimed, sweepFirst 100 [rStalePending], uProvider⟩ :=
  (c6_accept_failure_paths 100 0 uProvider [rStalePending] 1 rfl).2.2
    (by decide) { rStalePending with status := .expired } (by decide) (by decide)

/-! ### C7: effects of a successful accept -/

/-- C7 counterexample: a successful accept generates the PIN but never
writes `pinGeneratedAt` — the code-generation time the claim promises
is not stamped (the field stays `null`). -/
theorem c7_counterexample :
    (acceptRequest 70000 0 uProvider [rPending] 1).outcome = .accepted ∧
    (acceptRequest 70000 0 uProvider [rPending] 1).store.map
      Request.pinGeneratedAt = [none] := by
  decide

/-- C7 amended: a successful accept on a pending request sets the
request's provider to the caller, sets status to `in-progress`, stores
`Math.floor(100000 + rnd * 900000)` — an integer in 100000..999999 —
cast to its decimal string as the verification code, appends an
`accepted` history entry carrying the provider and the timestamp, and
sets the provider's status to `in-progress`; but it never stamps a
code-generation time (`pinGeneratedAt` is left untouched). -/
theorem c7_accept_success_effects (now : Int) (rnd : ℚ) (u : User)
    (store : List Request) (rid : Nat) (r : Request)
    (hrole : u.role = .provider) (hbusy : u.status ≠ "in-progress")
    (hfind : (sweepFirst now store).find? (fun x => x.id = rid) = some r)
    (hpend : r.status = .pending) (h0 : 0 ≤ rnd) (h1 : rnd < 1) :
    ∃ r', acceptRequest now rnd u store rid =
        ⟨.accepted, updateById (sweepFirst now store) rid r',
         { u with status := "in-progress" }⟩ ∧
      r'.provider = some u.id ∧
      r'.status = .inProgress ∧
      r'.generatedPin = some (toString (genPin rnd)) ∧
      100000 ≤ genPin rnd ∧ genPin rnd ≤ 999999 ∧
      r'.pinGeneratedAt = r.pinGeneratedAt ∧
      r'.history = r.history ++ [⟨some u.id, .accepted, now⟩] := by
  have hlb : (100000 : ℤ) ≤ genPin rnd := by
    unfold genPin
    rw [Int.le_floor]
    have : (0 : ℚ) ≤ rnd * 900000 := mul_nonneg h0 (by norm_num)
    push_cast
    linarith
  have hub : genPin rnd ≤ 999999 := by
    have : genPin rnd < 1000000 := by
      unfold genPin
      rw [Int.floor_lt]
      have : rnd * 900000 < 1 * 900000 :=
        mul_lt_mul_of_pos_right h1 (by norm_num)
      push_cast
      linarith
    omega
  refine ⟨saveRequest now r.status
    { r with status := .inProgress, provider := some u.id,
             generatedPin := some (toString (genPin rnd)) },
    acceptRequest_success now rnd u store rid r hrole hbusy hfind hpend,
    ?_, ?_, ?_, hlb, hub, ?_, ?_⟩ <;>
    simp [saveRequest, pushHistory, setExpiration, hpend]

/-- Witness for C7's amended theorem at a concrete input: accepting
the pending fixture with the random draw 1/2 (PIN 550000). -/
theorem c7_accept_success_effects_witness :
    ∃ r', acceptRequest 70000 (1/2) uProvider [rPending] 1 =
        ⟨.accepted, updateById (sweepFirst 70000 [rPending]) 1 r',
         { uProvider with status := "in-progress" }⟩ ∧
      r'.provider = some uProvider.id ∧
      r'.status = .inProgress ∧
      r'.generatedPin = some (toString (genPin (1/2))) ∧
      100000 ≤ genPin (1/2) ∧ genPin (1/2) ≤ 999999 ∧
      r'.pinGeneratedAt = rPending.pinGeneratedAt ∧
      r'.history = rPending.history ++ [⟨some uProvider.id, .accepted, 70000⟩] :=
  c7_accept_success_effects 70000 (1/2) uProvider [rPending] 1 rPending rfl
    (by decide) (by decide) (by decide) (by norm_num) (by norm_num)

/-! ### C4: the matching radius -/

/-- C4 counterexample: the controller's radius is hard-coded to 1000
kilometers, not 5 — a skill-matching provider whose spherical distance
to the pending, unexpired request is 10 km DOES receive it from
`getActiveRequests`, contradicting the claimed 5 km default under
which a 10 km provider sees nothing. -/
theorem c4_counterexample :
    matchRadius = 1000 ∧
    (getActiveRequests 100 (fun _ _ => 10) uProvider [rPending]).1 =
      .ok [rPending] := by
  decide

/-- C4 amended: for an authorized, non-busy provider with a location
on file, `getActiveRequests` returns exactly the (post-sweep) requests
whose category is among the provider's skills, whose spherical
distance from the provider's location is at most the fixed 1000 km
radius, whose `expirationTime` is not in the past, and whose status is
`pending` — in particular both a matching provider 2 km away and one
10 km away see such a request. -/
theorem c4_matching_radius (now : Int) (dist : Point → Point → ℚ) (u : User)
    (store : List Request) (loc : Point)
    (hrole : u.role = .provider) (hbusy : u.status ≠ "in-progress")
    (hloc : u.location = some loc) :
    ∃ l, (getActiveRequests now dist u store).1 = .ok l ∧
      ∀ r, r ∈ l ↔ r ∈ sweepExpired now store ∧ r.category ∈ u.skills ∧
        dist loc r.location ≤ 1000 ∧ now ≤ r.expirationTime ∧
        r.status = .pending := by
  unfold getActiveRequests
  rw [if_neg (by simp [hrole]), if_neg hbusy, hloc]
  refine ⟨_, rfl, fun r => ?_⟩
  rw [List.mem_filter]
  simp [matchRadius, and_assoc]

/-- Witness for C4's amended theorem at a concrete input: under a
distance function putting the fixture request 10 km away, the request
is in the returned list. -/
theorem c4_matching_radius_witness :
    ∃ l, (getActiveRequests 100 (fun _ _ => 10) uProvider [rPending]).1 =
        .ok l ∧
      ∀ r, r ∈ l ↔ r ∈ sweepExpired 100 [rPending] ∧
        r.category ∈ uProvider.skills ∧
        (fun (_ _ : Point) => (10 : ℚ)) ⟨77, 12⟩ r.location ≤ 1000 ∧
        (100 : Int) ≤ r.expirationTime ∧ r.status = .pending :=
  c4_matching_radius 100 (fun _ _ => 10) uProvider [rPending] ⟨77, 12⟩ rfl
    (by decide) rfl

/-! ### C9: throttling of provider location updates -/

/-- C9: when a previous propagated position exists and the service
carries the constructor's tracking options, `_shouldUpdatePosition`
lets a reading through only if the (haversine) distance from the last
propagated position exceeds the 10-meter movement threshold or the
time since that position exceeds the 60-second staleness bound;
`calcDistance` abstracts the floating-point `_calculateDistance`. -/
theorem c9_position_update_throttled (calcDistance : ℚ → ℚ → ℚ → ℚ → ℚ)
    (svc : LocationTrackingService) (pos last : Position)
    (hlast : svc.lastPosition = some last)
    (hopts : svc.trackingOptions = defaultTrackingOptions)
    (h : shouldUpdatePosition calcDistance svc pos = true) :
    calcDistance last.coords.latitude last.coords.longitude
      pos.coords.latitude pos.coords.longitude > 10 ∨
    pos.timestamp - last.timestamp > 60000 := by
  unfold shouldUpdatePosition at h
  rw [hlast] at h
  split_ifs at h with hb
  simp only [Bool.or_eq_true, decide_eq_true_eq, hopts,
    defaultTrackingOptions] at h
  exact h

/-- Witness for C9's theorem at a concrete input: a reading 100 m away
from the last propagated position passes the filter, and the theorem
yields the distance/staleness disjunction. -/
theorem c9_position_update_throttled_witness :
    (fun (_ _ _ _ : ℚ) => (100 : ℚ)) 0 0 1 1 > 10 ∨
    (70000 : Int) - 0 > 60000 :=
  c9_position_update_throttled (fun _ _ _ _ => 100)
    { newLocationTrackingService with
        lastPosition := some ⟨⟨0, 0, 10⟩, 0⟩ }
    ⟨⟨1, 1, 10⟩, 70000⟩ ⟨⟨0, 0, 10⟩, 0⟩ rfl rfl (by decide)

/-! ### C10: strict typing of the PIN comparison -/

/-- C10: the stored verification code is a schema `String` (the number
generated at accept is cast to its decimal string) and `complete`
compares it to the submitted body value with JS strict (in)equality,
which never coerces — so submitting the matching digits as a JSON
NUMBER fails with `InvalidPin` for any in-progress request. -/
theorem c10_number_pin_rejected (now : Int) (u : User) (store : List Request)
    (rid : Nat) (r : Request) (n : Int)
    (hfind : (sweepFirst now store).find? (fun x => x.id = rid) = some r)
    (_hstatus : r.status = .inProgress)
    (hpin : r.generatedPin = some (toString n)) :
    jsStrictEqPin r.generatedPin (.num n) = false ∧
    (completeRequest now u store rid (.num n)).outcome = .invalidPin := by
  have h1 : jsStrictEqPin r.generatedPin (.num n) = false := by
    rw [hpin]
    rfl
  exact ⟨h1,
    by rw [completeRequest_mismatch now u store rid (.num n) r hfind h1]⟩

/-- Witness for C10's theorem at a concrete input: the in-progress
fixture stores `"123456"`, and completing with the number 123456 is
rejected. -/
theorem c10_number_pin_rejected_witness :
    jsStrictEqPin rInProgressPin.generatedPin (.num 123456) = false ∧
    (completeRequest 500 uProvider [rInProgressPin] 3
        (.num 123456)).outcome = .invalidPin :=
  c10_number_pin_rejected 500 uProvider [rInProgressPin] 3 rInProgressPin
    123456 (by decide) (by decide) (by decide)

end Spotwise
